import Mathlib

/-!
Shallow embedding of the SEO URL checker (src/url_checker_app.py).

The per-URL extractor `get_page_data` issues one HTTP GET and parses the
returned HTML with BeautifulSoup.  The network and the parser are modelled
abstractly: a `world : String → Fetch` maps each requested URL either to a
transport failure (the `requests.exceptions.RequestException` branch) or to
an `HttpResponse` carrying the final post-redirect URL, the status code and
the parsed page.  The parsed page records exactly the lookups the code
performs: the canonical link and its href attribute, the first robots meta
tag and its content attribute, the title text, and the description meta tag
and its content attribute.  Each attribute lookup is an `Option` because
BeautifulSoup returns None for a missing attribute.

Python strings are sequences of code points, so the Python string methods
the code uses are modelled over `String.data : List Char`.
-/

namespace UrlChecker

/-- Python `s.startswith(pre)`. -/
def pyStartsWith (s pre : String) : Bool :=
  pre.data.isPrefixOf s.data

/-- Python substring test `sub in s`: some tail of `s` starts with `sub`. -/
def containsSub (s sub : String) : Bool :=
  s.data.tails.any (fun t => sub.data.isPrefixOf t)

/-- Python `s.lower()` (ASCII case folding, all the code ever needs). -/
def pyLower (s : String) : String :=
  ⟨s.data.map Char.toLower⟩

/-- Python `s.strip()`: drop whitespace from both ends. -/
def pyStrip (s : String) : String :=
  ⟨((s.data.dropWhile Char.isWhitespace).reverse.dropWhile
      Char.isWhitespace).reverse⟩

/-- Python `s.rstrip(slash)`: drop every trailing slash. -/
def rstripSlash (s : String) : String :=
  ⟨(s.data.reverse.dropWhile (fun c => c = '/')).reverse⟩

/-- Python `s[:n]`. -/
def pyTake (s : String) (n : Nat) : String :=
  ⟨s.data.take n⟩

/-- Drop the first `n` characters. -/
def pyDrop (s : String) (n : Nat) : String :=
  ⟨s.data.drop n⟩

/-- Drop the last `n` characters. -/
def pyDropRight (s : String) (n : Nat) : String :=
  ⟨s.data.take (s.data.length - n)⟩

/-- Split on the slash character. -/
def splitSlash (s : String) : List String :=
  (s.data.splitOn '/').map String.mk

/-- Join with slashes, inverse of `splitSlash`. -/
def joinSlash : List String → String
  | [] => ""
  | [x] => x
  | x :: xs => x ++ "/" ++ joinSlash xs

/-- Python truthiness of an optional string: None and the empty string are
falsy, every other string is truthy. -/
def pyTruthy : Option String → Bool
  | none => false
  | some s => !s.data.isEmpty

/-- The `status_code` field: an HTTP integer on success, the string
sentinel "Error" on failure. -/
inductive StatusCode where
  | num (n : Nat)
  | sentinel
  deriving Repr, DecidableEq

/-- The parse of a response body, recording the lookups `get_page_data`
performs on the soup.  The outer `Option` is tag presence, the inner
`Option` is attribute presence. -/
structure Page where
  canonicalHref : Option (Option String)
  robotsContent : Option (Option String)
  titleText : Option String
  descContent : Option (Option String)
  deriving Repr, DecidableEq

/-- A completed HTTP exchange: status code, final post-redirect URL
(`response.url`) and the parsed body. -/
structure HttpResponse where
  status_code : Nat
  url : String
  page : Page
  deriving Repr, DecidableEq

/-- Outcome of `requests.get`: a transport-level exception or a response. -/
inductive Fetch where
  | transportError (msg : String)
  | success (resp : HttpResponse)
  deriving Repr, DecidableEq

/-- The record `get_page_data` returns (lines 125-166). -/
structure AnalysisResult where
  url : String
  status_code : StatusCode
  canonical_url : String
  is_self_referring : Bool
  noindex_found : Bool
  nofollow_found : Bool
  meta_title : Option String
  title_length : Nat
  meta_description : Option String
  desc_length : Nat
  error : Option String
  deriving Repr, DecidableEq

/-- Lines 74-76: prepend `https://` when the input has no scheme. -/
def normalizeUrl (url : String) : String :=
  if pyStartsWith url "http://" || pyStartsWith url "https://" then url
  else "https://" ++ url

/-- Scheme prefix and remainder of a base URL, for the `urljoin` model. -/
def splitScheme (base : String) : String × String :=
  if pyStartsWith base "https://" then ("https://", pyDrop base 8)
  else if pyStartsWith base "http://" then ("http://", pyDrop base 7)
  else ("", base)

/-- The authority (host[:port]) part of a base URL, after the scheme. -/
def authorityOf (rest : String) : String :=
  (splitSlash rest).headD ""

/-- The directory part of a path: everything up to and including the last
slash; "/" when the path is empty. -/
def dirOf (path : String) : String :=
  if path = "" then "/"
  else joinSlash (splitSlash path).dropLast ++ "/"

/-- Model of `urllib.parse.urljoin` for the http(s) URL forms the checker
meets: an absolute href is returned as is; a scheme-relative href takes the
scheme of the base; an absolute path replaces the base path; a relative
path replaces the last segment of the base path.  Query strings, fragments
and dot segments are outside the model. -/
def urljoin (base href : String) : String :=
  if pyStartsWith href "http://" || pyStartsWith href "https://" then href
  else
    let scheme := (splitScheme base).1
    let rest := (splitScheme base).2
    let auth := authorityOf rest
    let path := pyDrop rest auth.length
    if pyStartsWith href "//" then pyDropRight scheme 2 ++ href
    else if pyStartsWith href "/" then scheme ++ auth ++ href
    else scheme ++ auth ++ dirOf path ++ href

/-- The failure record returned by both except branches (lines 139-166):
the local `url` variable was already scheme-normalized when the exception
was raised, so it appears normalized here. -/
def failureRecord (url msg : String) : AnalysisResult :=
  { url := url
    status_code := .sentinel
    canonical_url := "Error"
    is_self_referring := false
    noindex_found := false
    nofollow_found := false
    meta_title := none
    title_length := 0
    meta_description := none
    desc_length := 0
    error := some msg }

/-- Message of the AttributeError raised by calling `.strip()` on None at
line 122 when the description meta tag has no content attribute (the
Python text of the message, with its quote characters elided). -/
def attributeErrorMsg : String :=
  "AttributeError: NoneType object has no attribute strip"

/-- Lines 90-100, value of `canonical_url` after the if: the href of the
canonical link (BeautifulSoup `tag.get(href)` is None for a missing tag or
attribute, hence `bind id`), resolved against the requested URL when
truthy, else the "Not found" sentinel. -/
def canonicalResolved (url : String) (page : Page) : String :=
  if pyTruthy (page.canonicalHref.bind id) then
    urljoin url ((page.canonicalHref.bind id).getD "")
  else "Not found"

/-- Line 97: the resolved canonical URL equals the final post-redirect
`response.url`, trailing slashes stripped from both; false when no truthy
canonical href exists (line 99). -/
def selfReferring (url : String) (resp : HttpResponse) : Bool :=
  if pyTruthy (resp.page.canonicalHref.bind id) then
    rstripSlash (urljoin url ((resp.page.canonicalHref.bind id).getD "")) ==
      rstripSlash resp.url
  else false

/-- Lines 102-107: `robots_meta.get(content, empty).lower()` contains
"noindex"; false when the robots meta tag is absent. -/
def noindexFound (page : Page) : Bool :=
  match page.robotsContent with
  | some attr => containsSub (pyLower (attr.getD "")) "noindex"
  | none => false

/-- Lines 109-113: same tag, token "nofollow". -/
def nofollowFound (page : Page) : Bool :=
  match page.robotsContent with
  | some attr => containsSub (pyLower (attr.getD "")) "nofollow"
  | none => false

/-- Lines 116-117: `title_tag.get_text().strip()` when the title tag
exists, None otherwise. -/
def metaTitle (page : Page) : Option String :=
  page.titleText.map pyStrip

/-- Line 118: `len(meta_title) if meta_title else 0` (Python truthiness:
an empty trimmed title gives 0). -/
def titleLength (page : Page) : Nat :=
  if pyTruthy (metaTitle page) then ((metaTitle page).getD "").length else 0

/-- Lines 84-137: populate the record from a completed response.  The only
step of the parse that can raise is the description lookup at line 122:
`desc_tag.get(content).strip()` raises AttributeError when the tag exists
but the attribute does not; that exception is the `Except.error` case. -/
def extract (url : String) (resp : HttpResponse) : Except String AnalysisResult :=
  match resp.page.descContent with
  | some none => Except.error attributeErrorMsg
  | some (some c) =>
    Except.ok
      { url := url
        status_code := .num resp.status_code
        canonical_url := canonicalResolved url resp.page
        is_self_referring := selfReferring url resp
        noindex_found := noindexFound resp.page
        nofollow_found := nofollowFound resp.page
        meta_title := metaTitle resp.page
        title_length := titleLength resp.page
        meta_description := some (pyStrip c)
        desc_length := if pyTruthy (some (pyStrip c)) then (pyStrip c).length else 0
        error := none }
  | none =>
    Except.ok
      { url := url
        status_code := .num resp.status_code
        canonical_url := canonicalResolved url resp.page
        is_self_referring := selfReferring url resp
        noindex_found := noindexFound resp.page
        nofollow_found := nofollowFound resp.page
        meta_title := metaTitle resp.page
        title_length := titleLength resp.page
        meta_description := none
        desc_length := 0
        error := none }

/-- Lines 69-166: normalize the URL, fetch it through the world, populate
the record; any exception (transport or parse) yields the failure record. -/
def get_page_data (world : String → Fetch) (url : String) : AnalysisResult :=
  match world (normalizeUrl url) with
  | .transportError msg => failureRecord (normalizeUrl url) msg
  | .success resp =>
    match extract (normalizeUrl url) resp with
    | .ok r => r
    | .error msg => failureRecord (normalizeUrl url) msg

/-- Lines 198-219, `format_meta_content`: truncate the content to 100
characters for display and append a length badge, or render the missing
marker when the content is falsy (None or empty).  The length argument is
passed by the caller, as in the source. -/
def format_meta_content (content : Option String) (length : Nat)
    (field_name : String) : String :=
  if pyTruthy content then
    let c := content.getD ""
    let length_color :=
      if field_name = "title" then
        if 30 ≤ length ∧ length ≤ 60 then "tag-good"
        else if length < 30 ∨ length > 60 then "tag-warning"
        else "tag-warning"
      else
        if 120 ≤ length ∧ length ≤ 160 then "tag-good"
        else if length < 120 ∨ length > 160 then "tag-warning"
        else "tag-warning"
    pyTake c 100 ++ (if c.length > 100 then "..." else "") ++
      " <span class=\"" ++ length_color ++ "\">(" ++ toString length ++
      " chars)</span>"
  else
    "<span class=\"error-message\">❌ Missing " ++ field_name ++ "</span>"

/-- Lines 315-319: the first column whose lowercased name is url, urls,
link or links. -/
def find_url_column (cols : List String) : Option String :=
  cols.find? (fun c => ["url", "urls", "link", "links"].contains (pyLower c))

/-- `df[url_column].dropna().tolist()` (line 324): drop the missing cells
of the column.  A cell is `none` when the CSV cell is empty or absent,
which pandas reads as NaN. -/
def dropna (col : List (Option String)) : List String :=
  col.filterMap id

/-- Lines 328-336: the batch loop, appending one result per URL in order. -/
def batchLoop (world : String → Fetch) : List String → List AnalysisResult →
    List AnalysisResult
  | [], acc => acc
  | u :: rest, acc => batchLoop world rest (acc ++ [get_page_data world u])

/-- Lines 309-336 of the batch flow, reduced to its data path: locate the
URL column among the headers (stop with `none` when there is none), drop
the missing cells and run the loop.  `getCol` returns the cells of a named
column. -/
def batchFlow (world : String → Fetch) (cols : List String)
    (getCol : String → List (Option String)) : Option (List AnalysisResult) :=
  match find_url_column cols with
  | none => none
  | some c => some (batchLoop world (dropna (getCol c)) [])

/-- Line 394: the canonical-issues summary counter. -/
def canonical_issues (results : List AnalysisResult) : Nat :=
  (results.filter
    (fun r => !r.is_self_referring && r.canonical_url ≠ "Not found")).length

/-- Modelled from the spec words of the claim on the canonical-issues
counter: records whose canonical URL exists, meaning `canonical_url` is
neither the "Not found" sentinel nor the failure value "Error", and which
are not self-referring.  Written for comparison with `canonical_issues`,
the counter the source computes. -/
def canonicalIssuesSpec (results : List AnalysisResult) : Nat :=
  (results.filter
    (fun r => !r.is_self_referring && r.canonical_url ≠ "Not found" &&
      r.canonical_url ≠ "Error")).length

/-- Line 402: the missing-titles summary counter; `not r[meta_title]`
counts both an absent title and an empty-string title. -/
def missing_titles (results : List AnalysisResult) : Nat :=
  (results.filter (fun r => !pyTruthy r.meta_title)).length

/-! Concrete worlds and pages used to evaluate the model on closed inputs. -/

/-- A world where every fetch fails at the transport level. -/
def downWorld : String → Fetch := fun _ => .transportError "connection refused"

/-- A page with none of the inspected tags. -/
def emptyPage : Page :=
  { canonicalHref := none
    robotsContent := none
    titleText := none
    descContent := none }

/-- A page whose description meta tag exists but has no content
attribute. -/
def descBugPage : Page :=
  { canonicalHref := none
    robotsContent := none
    titleText := some "Home"
    descContent := some none }

/-- A world serving `descBugPage` with status 200. -/
def descBugWorld : String → Fetch :=
  fun _ => .success
    { status_code := 200
      url := "https://example.com/"
      page := descBugPage }

/-- A world serving `descBugPage` with status 404. -/
def notFoundBugWorld : String → Fetch :=
  fun _ => .success
    { status_code := 404
      url := "https://example.com/missing"
      page := descBugPage }

/-- A world serving `emptyPage` with status 404. -/
def notFoundOkWorld : String → Fetch :=
  fun _ => .success
    { status_code := 404
      url := "https://example.com/missing"
      page := emptyPage }

/-- A response whose final URL carries a trailing slash and whose page has
a relative canonical href pointing back at it. -/
def canonResp : HttpResponse :=
  { status_code := 200
    url := "https://example.com/page/"
    page :=
      { canonicalHref := some (some "/page")
        robotsContent := none
        titleText := some "T"
        descContent := none } }

/-- A world serving `canonResp`. -/
def canonWorld : String → Fetch := fun _ => .success canonResp

/-- A response whose title tag holds only whitespace. -/
def blankTitleResp : HttpResponse :=
  { status_code := 200
    url := "https://example.com/"
    page :=
      { canonicalHref := none
        robotsContent := none
        titleText := some "   "
        descContent := none } }

/-- A world serving `blankTitleResp`. -/
def blankTitleWorld : String → Fetch := fun _ => .success blankTitleResp

/-- A two-column table: the URL column has a missing middle cell. -/
def sampleCol : String → List (Option String) := fun c =>
  if c = "URL" then [some "a.example", none, some "b.example"] else []

/-- A response with a matching relative canonical href AND a description
meta tag lacking its content attribute. -/
def canonDescBugResp : HttpResponse :=
  { status_code := 200
    url := "https://example.com/page/"
    page :=
      { canonicalHref := some (some "/page")
        robotsContent := none
        titleText := some "T"
        descContent := some none } }

/-- A world serving `canonDescBugResp`. -/
def canonDescBugWorld : String → Fetch := fun _ => .success canonDescBugResp

/-- A response with a whitespace-only title AND a description meta tag
lacking its content attribute. -/
def blankTitleDescBugResp : HttpResponse :=
  { status_code := 200
    url := "https://example.com/"
    page :=
      { canonicalHref := none
        robotsContent := none
        titleText := some "   "
        descContent := some none } }

/-- A world serving `blankTitleDescBugResp`. -/
def blankTitleDescBugWorld : String → Fetch :=
  fun _ => .success blankTitleDescBugResp

/-! Evaluation lemmas for `extract` and `get_page_data`, one per shape of
the description meta tag. -/

theorem extract_desc_none (url : String) (resp : HttpResponse)
    (hd : resp.page.descContent = none) :
    extract url resp = Except.ok
      { url := url
        status_code := .num resp.status_code
        canonical_url := canonicalResolved url resp.page
        is_self_referring := selfReferring url resp
        noindex_found := noindexFound resp.page
        nofollow_found := nofollowFound resp.page
        meta_title := metaTitle resp.page
        title_length := titleLength resp.page
        meta_description := none
        desc_length := 0
        error := none } := by
  unfold extract
  rw [hd]

theorem extract_desc_some (url : String) (resp : HttpResponse) (c : String)
    (hd : resp.page.descContent = some (some c)) :
    extract url resp = Except.ok
      { url := url
        status_code := .num resp.status_code
        canonical_url := canonicalResolved url resp.page
        is_self_referring := selfReferring url resp
        noindex_found := noindexFound resp.page
        nofollow_found := nofollowFound resp.page
        meta_title := metaTitle resp.page
        title_length := titleLength resp.page
        meta_description := some (pyStrip c)
        desc_length := if pyTruthy (some (pyStrip c)) then (pyStrip c).length else 0
        error := none } := by
  unfold extract
  rw [hd]

theorem extract_desc_attr_missing (url : String) (resp : HttpResponse)
    (hd : resp.page.descContent = some none) :
    extract url resp = Except.error attributeErrorMsg := by
  unfold extract
  rw [hd]

theorem get_page_data_success (world : String → Fetch) (url : String)
    (resp : HttpResponse) (hfetch : world (normalizeUrl url) = .success resp) :
    get_page_data world url =
      (match extract (normalizeUrl url) resp with
        | Except.ok r => r
        | Except.error msg => failureRecord (normalizeUrl url) msg) := by
  unfold get_page_data
  rw [hfetch]

theorem get_page_data_desc_none (world : String → Fetch) (url : String)
    (resp : HttpResponse) (hfetch : world (normalizeUrl url) = .success resp)
    (hd : resp.page.descContent = none) :
    get_page_data world url =
      { url := normalizeUrl url
        status_code := .num resp.status_code
        canonical_url := canonicalResolved (normalizeUrl url) resp.page
        is_self_referring := selfReferring (normalizeUrl url) resp
        noindex_found := noindexFound resp.page
        nofollow_found := nofollowFound resp.page
        meta_title := metaTitle resp.page
        title_length := titleLength resp.page
        meta_description := none
        desc_length := 0
        error := none } := by
  rw [get_page_data_success world url resp hfetch, extract_desc_none _ _ hd]

theorem get_page_data_desc_some (world : String → Fetch) (url : String)
    (resp : HttpResponse) (c : String)
    (hfetch : world (normalizeUrl url) = .success resp)
    (hd : resp.page.descContent = some (some c)) :
    get_page_data world url =
      { url := normalizeUrl url
        status_code := .num resp.status_code
        canonical_url := canonicalResolved (normalizeUrl url) resp.page
        is_self_referring := selfReferring (normalizeUrl url) resp
        noindex_found := noindexFound resp.page
        nofollow_found := nofollowFound resp.page
        meta_title := metaTitle resp.page
        title_length := titleLength resp.page
        meta_description := some (pyStrip c)
        desc_length := if pyTruthy (some (pyStrip c)) then (pyStrip c).length else 0
        error := none } := by
  rw [get_page_data_success world url resp hfetch, extract_desc_some _ _ _ hd]

theorem get_page_data_desc_attr_missing (world : String → Fetch)
    (url : String) (resp : HttpResponse)
    (hfetch : world (normalizeUrl url) = .success resp)
    (hd : resp.page.descContent = some none) :
    get_page_data world url =
      failureRecord (normalizeUrl url) attributeErrorMsg := by
  rw [get_page_data_success world url resp hfetch,
    extract_desc_attr_missing _ _ hd]

/-- C1: `get_page_data` is a total function into complete
`AnalysisResult` records — the embedding of never raising: every exception
path of the source ends in the `failureRecord` branch — and each failure
of the fetch-and-extract pipeline is captured in the error field: every
result either carries no error, or is exactly the failure record with the
message of the exception in its error field. -/
theorem get_page_data_total_and_captures (world : String → Fetch)
    (url : String) :
    (get_page_data world url).error = none ∨
    ∃ msg, get_page_data world url = failureRecord (normalizeUrl url) msg := by
  cases hfetch : world (normalizeUrl url) with
  | transportError msg =>
    right
    refine ⟨msg, ?_⟩
    unfold get_page_data
    rw [hfetch]
  | success resp =>
    cases hd : resp.page.descContent with
    | none => left; rw [get_page_data_desc_none world url resp hfetch hd]
    | some attr =>
      cases attr with
      | none =>
        right
        exact ⟨attributeErrorMsg,
          get_page_data_desc_attr_missing world url resp hfetch hd⟩
      | some c => left; rw [get_page_data_desc_some world url resp c hfetch hd]

/-- C2: a transport-level fetch failure yields exactly the failure record:
error holds the failure description, status_code is the "Error" sentinel
(the `sentinel` constructor, never a `num`), canonical_url is "Error", the
three booleans are false, title and description are absent and both
lengths are 0. -/
theorem transport_failure_record (world : String → Fetch) (url msg : String)
    (hfetch : world (normalizeUrl url) = .transportError msg) :
    get_page_data world url =
      { url := normalizeUrl url
        status_code := .sentinel
        canonical_url := "Error"
        is_self_referring := false
        noindex_found := false
        nofollow_found := false
        meta_title := none
        title_length := 0
        meta_description := none
        desc_length := 0
        error := some msg } := by
  unfold get_page_data
  rw [hfetch]
  rfl

/-- Witness for C2 at a concrete world where the connection is refused. -/
theorem transport_failure_record_witness :
    get_page_data downWorld "example.com" =
      { url := "https://example.com"
        status_code := .sentinel
        canonical_url := "Error"
        is_self_referring := false
        noindex_found := false
        nofollow_found := false
        meta_title := none
        title_length := 0
        meta_description := none
        desc_length := 0
        error := some "connection refused" } :=
  (transport_failure_record downWorld "example.com" "connection refused"
    rfl).trans (by decide)

/-- C8, counterexample: the input "example.com" lacks a scheme; on a
transport failure the returned record is failed (error set) yet its url
field is the scheme-normalized "https://example.com", not the original
input string. -/
theorem url_field_counterexample :
    (get_page_data downWorld "example.com").error ≠ none ∧
    (get_page_data downWorld "example.com").url ≠ "example.com" := by
  decide

/-- C8 as amended: the url field of the returned record always equals the
scheme-normalized input URL — on failure as well as on success — so it
equals the original input exactly when the input already carried an
http or https scheme. -/
theorem url_field_is_normalized_input (world : String → Fetch)
    (url : String) :
    (get_page_data world url).url = normalizeUrl url := by
  cases hfetch : world (normalizeUrl url) with
  | transportError msg =>
    unfold get_page_data
    rw [hfetch]
    rfl
  | success resp =>
    cases hd : resp.page.descContent with
    | none => rw [get_page_data_desc_none world url resp hfetch hd]
    | some attr =>
      cases attr with
      | none =>
        rw [get_page_data_desc_attr_missing world url resp hfetch hd]
        rfl
      | some c => rw [get_page_data_desc_some world url resp c hfetch hd]

/-- A nonempty Python string is truthy. -/
theorem pyTruthy_some_of_ne (s : String) (h : s ≠ "") :
    pyTruthy (some s) = true := by
  cases hs : s.data.isEmpty with
  | false => simp [pyTruthy, hs]
  | true =>
    exfalso
    apply h
    cases s with
    | mk data =>
      cases data with
      | nil => rfl
      | cons a l => simp [List.isEmpty] at hs

/-- C3, failing evaluation for the code bug at line 122: a successful
status-200 fetch of a page whose description meta tag has no content
attribute produces a failure record with the AttributeError text in the
error field, instead of a record with an absent description, desc_length 0
and no error. -/
theorem desc_attr_missing_error_record :
    get_page_data descBugWorld "https://example.com" =
      failureRecord "https://example.com" attributeErrorMsg ∧
    (get_page_data descBugWorld "https://example.com").error =
      some attributeErrorMsg := by
  decide

/-- C5, the failing evaluation: a 404 over a parseable page is populated
normally (status_code 404, no error), but the same 404 over a page whose
description meta tag lacks its content attribute becomes a failure record
whose status_code is the sentinel instead of the integer 404, so the claim
as universally stated fails on that input. -/
theorem http_error_status_populated_eval :
    (get_page_data notFoundOkWorld "https://example.com/missing").status_code =
      .num 404 ∧
    (get_page_data notFoundOkWorld "https://example.com/missing").error =
      none ∧
    (get_page_data notFoundBugWorld "https://example.com/missing").status_code =
      .sentinel ∧
    (get_page_data notFoundBugWorld "https://example.com/missing").error =
      some attributeErrorMsg := by
  decide

/-- C4, counterexample to the claim as stated: a status-200 fetch with a
canonical link whose resolved href "https://example.com/page" does equal
the final URL after stripping trailing slashes — a matching
self-referential canonical link on a successful fetch — yet, because the
description meta tag of the same page lacks its content attribute, the
line-122 AttributeError turns the record into a failure record:
canonical_url is "Error" and is_self_referring is false. -/
theorem canonical_resolution_counterexample :
    rstripSlash (urljoin (normalizeUrl "example.com") "/page") =
      rstripSlash canonDescBugResp.url ∧
    (get_page_data canonDescBugWorld "example.com").canonical_url =
      "Error" ∧
    (get_page_data canonDescBugWorld "example.com").is_self_referring =
      false ∧
    (get_page_data canonDescBugWorld "example.com").error =
      some attributeErrorMsg := by
  decide

/-- C4 as amended: on a successful fetch whose parse raises nothing (the
description meta tag, when present, carries its content attribute — the
line-122 failure otherwise replaces the whole record), a missing (or
falsy) canonical href gives the "Not found" sentinel and a false
is_self_referring; a truthy canonical href is resolved with `urljoin`
against the requested (scheme-normalized) URL, and is_self_referring is
exactly the equality of that resolved URL with the final post-redirect
URL, trailing slashes stripped from both sides. -/
theorem canonical_resolution (world : String → Fetch) (url : String)
    (resp : HttpResponse)
    (hfetch : world (normalizeUrl url) = .success resp)
    (hdesc : resp.page.descContent ≠ some none) :
    ((resp.page.canonicalHref.bind id = none ∨
        resp.page.canonicalHref.bind id = some "") →
      (get_page_data world url).canonical_url = "Not found" ∧
      (get_page_data world url).is_self_referring = false) ∧
    (∀ href, resp.page.canonicalHref.bind id = some href → href ≠ "" →
      (get_page_data world url).canonical_url =
        urljoin (normalizeUrl url) href ∧
      (get_page_data world url).is_self_referring =
        (rstripSlash (urljoin (normalizeUrl url) href) ==
          rstripSlash resp.url)) := by
  have hfields : (get_page_data world url).canonical_url =
      canonicalResolved (normalizeUrl url) resp.page ∧
      (get_page_data world url).is_self_referring =
        selfReferring (normalizeUrl url) resp := by
    cases hd : resp.page.descContent with
    | none =>
      rw [get_page_data_desc_none world url resp hfetch hd]
      exact ⟨rfl, rfl⟩
    | some attr =>
      cases attr with
      | none => exact absurd hd hdesc
      | some c =>
        rw [get_page_data_desc_some world url resp c hfetch hd]
        exact ⟨rfl, rfl⟩
  constructor
  · intro hc
    rw [hfields.1, hfields.2]
    unfold canonicalResolved selfReferring
    rcases hc with hc | hc <;> rw [hc] <;> exact ⟨rfl, rfl⟩
  · intro href hc hne
    rw [hfields.1, hfields.2]
    unfold canonicalResolved selfReferring
    rw [hc]
    simp [pyTruthy_some_of_ne href hne]

/-- Witness for C4: the input lacks a scheme, the canonical href "/page"
is relative, the final URL carries a trailing slash the resolved canonical
lacks — and is_self_referring still comes out true. -/
theorem canonical_resolution_witness :
    (get_page_data canonWorld "example.com").canonical_url =
      "https://example.com/page" ∧
    (get_page_data canonWorld "example.com").is_self_referring = true := by
  have h := (canonical_resolution canonWorld "example.com" canonResp rfl
    (by decide)).2 "/page" rfl (by decide)
  exact ⟨h.1.trans (by decide), h.2.trans (by decide)⟩

/-- C9: for a truthy content string the length badge is "tag-good" exactly
when the length lies in the recommended band (title 30-60, description
120-160) and "tag-warning" otherwise — so 30 and 60 classify good while 29
and 61 classify warning for the title, and 120 and 160 good while 119 and
161 warning for the description — and an absent content renders the
missing-field marker. -/
theorem format_meta_content_classification (c : String) (len : Nat)
    (hc : c ≠ "") :
    format_meta_content (some c) len "title" =
      pyTake c 100 ++ (if c.length > 100 then "..." else "") ++
        " <span class=\"" ++
        (if 30 ≤ len ∧ len ≤ 60 then "tag-good" else "tag-warning") ++
        "\">(" ++ toString len ++ " chars)</span>" ∧
    format_meta_content (some c) len "description" =
      pyTake c 100 ++ (if c.length > 100 then "..." else "") ++
        " <span class=\"" ++
        (if 120 ≤ len ∧ len ≤ 160 then "tag-good" else "tag-warning") ++
        "\">(" ++ toString len ++ " chars)</span>" ∧
    ∀ fn, format_meta_content none len fn =
      "<span class=\"error-message\">❌ Missing " ++ fn ++ "</span>" := by
  refine ⟨?_, ?_, fun fn => rfl⟩ <;>
    simp [format_meta_content, pyTruthy_some_of_ne c hc, ite_self]

/-- Witness for C9 at a nonempty content of display length 30. -/
theorem format_meta_content_classification_witness :
    format_meta_content (some "Hello") 30 "title" =
      "Hello <span class=\"tag-good\">(30 chars)</span>" := by
  have h := (format_meta_content_classification "Hello" 30 (by decide)).1
  exact h.trans (by decide)

/-- C10, counterexample to the claim as stated: a status-200 fetch of a
page whose title element is whitespace-only but whose description meta tag
lacks its content attribute hits the line-122 AttributeError, so the
returned record is a failure record whose meta_title is absent (none), not
the empty string the claim requires. -/
theorem blank_title_counterexample :
    blankTitleDescBugResp.page.titleText = some "   " ∧
    (get_page_data blankTitleDescBugWorld "example.com").meta_title =
      none ∧
    (get_page_data blankTitleDescBugWorld "example.com").error =
      some attributeErrorMsg := by
  decide

/-- C10 as amended: a successful fetch whose parse raises nothing (the
description meta tag, when present, carries its content attribute — the
line-122 failure otherwise replaces the whole record) of a page whose
title text strips to the empty string yields meta_title = some "" — the
empty string, not an absent value — with title_length 0; the meta-content
formatter renders the missing-title marker for that record, and the batch
missing-titles counter counts it wherever it stands in the result list. -/
theorem blank_title_treated_as_missing (world : String → Fetch)
    (url : String) (resp : HttpResponse) (w : String)
    (hfetch : world (normalizeUrl url) = .success resp)
    (htitle : resp.page.titleText = some w) (hw : pyStrip w = "")
    (hdesc : resp.page.descContent ≠ some none) :
    (get_page_data world url).meta_title = some "" ∧
    (get_page_data world url).title_length = 0 ∧
    format_meta_content (get_page_data world url).meta_title
      (get_page_data world url).title_length "title" =
      "<span class=\"error-message\">❌ Missing title</span>" ∧
    ∀ rs1 rs2, missing_titles (rs1 ++ get_page_data world url :: rs2) =
      missing_titles (rs1 ++ rs2) + 1 := by
  have hfield : (get_page_data world url).meta_title = metaTitle resp.page ∧
      (get_page_data world url).title_length = titleLength resp.page := by
    cases hd : resp.page.descContent with
    | none =>
      rw [get_page_data_desc_none world url resp hfetch hd]
      exact ⟨rfl, rfl⟩
    | some attr =>
      cases attr with
      | none => exact absurd hd hdesc
      | some c =>
        rw [get_page_data_desc_some world url resp c hfetch hd]
        exact ⟨rfl, rfl⟩
  have h1 : metaTitle resp.page = some "" := by
    unfold metaTitle
    rw [htitle]
    simp [hw]
  have h2 : titleLength resp.page = 0 := by
    unfold titleLength
    rw [h1]
    decide
  have hmt : (get_page_data world url).meta_title = some "" :=
    hfield.1.trans h1
  have hlen : (get_page_data world url).title_length = 0 :=
    hfield.2.trans h2
  refine ⟨hmt, hlen, ?_, ?_⟩
  · rw [hmt, hlen]
    decide
  · intro rs1 rs2
    have hp : (!pyTruthy (get_page_data world url).meta_title) = true := by
      rw [hmt]
      decide
    unfold missing_titles
    rw [List.filter_append, List.filter_append, List.filter_cons, hp]
    simp only [if_true, List.length_append, List.length_cons]
    omega

/-- Witness for C10 at a concrete page whose title is three spaces. -/
theorem blank_title_treated_as_missing_witness :
    (get_page_data blankTitleWorld "example.com").meta_title = some "" ∧
    (get_page_data blankTitleWorld "example.com").title_length = 0 ∧
    missing_titles [get_page_data blankTitleWorld "example.com"] = 1 := by
  have h := blank_title_treated_as_missing blankTitleWorld "example.com"
    blankTitleResp "   " rfl rfl (by decide) (by decide)
  refine ⟨h.1, h.2.1, ?_⟩
  have h4 := h.2.2.2 [] []
  simp only [List.nil_append] at h4
  rw [h4]
  rfl

/-- The batch loop of lines 328-336 is an in-order map of the extractor. -/
theorem batchLoop_eq_append_map (world : String → Fetch) (us : List String)
    (acc : List AnalysisResult) :
    batchLoop world us acc = acc ++ us.map (get_page_data world) := by
  induction us generalizing acc with
  | nil => simp [batchLoop]
  | cons u rest ih => simp [batchLoop, ih]

/-- C6: when the header list has a recognized URL column, the batch flow
returns exactly the map of the extractor over the non-empty cells of that
column — one result per non-empty URL, blank and missing cells skipped,
input row order preserved — and hence as many results as retained rows. -/
theorem batch_one_result_per_url_in_order (world : String → Fetch)
    (cols : List String) (getCol : String → List (Option String))
    (c : String) (hc : find_url_column cols = some c) :
    batchFlow world cols getCol =
      some ((dropna (getCol c)).map (get_page_data world)) ∧
    ∀ rs, batchFlow world cols getCol = some rs →
      rs.length = (dropna (getCol c)).length := by
  have h1 : batchFlow world cols getCol =
      some ((dropna (getCol c)).map (get_page_data world)) := by
    unfold batchFlow
    rw [hc]
    show some (batchLoop world (dropna (getCol c)) []) = _
    rw [batchLoop_eq_append_map]
    simp
  refine ⟨h1, fun rs hrs => ?_⟩
  rw [h1] at hrs
  cases hrs
  simp

/-- Witness for C6: a mixed-case URL header, a column with a missing
middle cell, and a world where every fetch fails. -/
theorem batch_one_result_per_url_in_order_witness :
    batchFlow downWorld ["Name", "URL"] sampleCol =
      some [failureRecord "https://a.example" "connection refused",
        failureRecord "https://b.example" "connection refused"] := by
  have h := (batch_one_result_per_url_in_order downWorld ["Name", "URL"]
    sampleCol "URL" (by decide)).1
  exact h.trans (by decide)

/-- C7, counterexample: a batch holding one transport-failure record —
canonical_url is the failure value "Error" and is_self_referring false —
is counted by the canonical-issues counter of line 394, while the count
the claim describes (canonical exists: neither "Not found" nor a failure
value) is 0 over the same list. -/
theorem canonical_issues_counterexample :
    (get_page_data downWorld "a.example").error ≠ none ∧
    canonical_issues [get_page_data downWorld "a.example"] = 1 ∧
    canonicalIssuesSpec [get_page_data downWorld "a.example"] = 0 := by
  decide

/-- C7 as amended: the counter counts every record with is_self_referring
false and canonical_url different from "Not found" — including failure
records, whose canonical_url is the "Error" sentinel: over any result list
it equals the count the claim describes plus the number of
non-self-referring records whose canonical_url is "Error". -/
theorem canonical_issues_decomposition (results : List AnalysisResult) :
    canonical_issues results =
      canonicalIssuesSpec results +
      (results.filter (fun r => !r.is_self_referring &&
        r.canonical_url = "Error")).length := by
  induction results with
  | nil => rfl
  | cons r rs ih =>
    unfold canonical_issues canonicalIssuesSpec at ih ⊢
    rw [List.filter_cons, List.filter_cons, List.filter_cons]
    by_cases h1 : r.is_self_referring
    · simp [h1] at ih ⊢
      omega
    · by_cases h2 : r.canonical_url = "Not found"
      · simp [h1, h2] at ih ⊢
        omega
      · by_cases h3 : r.canonical_url = "Error"
        · simp [h1, h2, h3] at ih ⊢
          omega
        · simp [h1, h2, h3] at ih ⊢
          omega

end UrlChecker
